import Mathlib

/-!
Verification of the Windows platform layer of libkqueue
(src/windows/platform.c) and its test harness (src/test/main.c) against the
natural-language specification.

The C code is shallowly embedded: machine integers become Nat/Int with
explicit reduction modulo 2^32 where a DWORD is involved, struct fields become
structure fields, and the externally supplied behaviours (the OS wait
primitive, the per-filter copyout functions, which are not part of the Windows
sources) become explicit parameters or spec-modelled definitions.
-/

namespace LibKqueue

/-! ## Basic constants (sys/event.h values, as pinned by the spec §6) -/

def EV_ADD : Nat := 0x0001
def EV_DELETE : Nat := 0x0002
def EV_ENABLE : Nat := 0x0004
def EV_DISABLE : Nat := 0x0008
def EV_ONESHOT : Nat := 0x0010
def EV_CLEAR : Nat := 0x0020
def EV_RECEIPT : Nat := 0x0040
def EV_DISPATCH : Nat := 0x0080
def EV_ERROR : Nat := 0x4000
def EV_EOF : Nat := 0x8000

def EVFILT_READ : Int := -1
def EVFILT_WRITE : Int := -2
def EVFILT_VNODE : Int := -4
def EVFILT_PROC : Int := -5
def EVFILT_SIGNAL : Int := -6
def EVFILT_TIMER : Int := -7
def EVFILT_USER : Int := -10

/-- Bit test on a C flags word: `(flags & flag) != 0`. -/
def hasFlag (flags flag : Nat) : Bool := flags &&& flag != 0

/-! ## The kevent shape (struct kevent) -/

/-- Embeds `struct kevent`: tuple (ident, filter, flags, fflags, data, udata). -/
structure Kevent where
  ident : Nat
  filter : Int
  flags : Nat
  fflags : Nat
  data : Int
  udata : Nat
deriving DecidableEq, Repr

/-- The all-zero kevent: what windows_kevent_copyout calls "an empty kevent
structure" (platform.c:209); recognised by `filter = 0`. -/
def emptyKevent : Kevent := ⟨0, 0, 0, 0, 0, 0⟩

/-! ## C1: timeout conversion in windows_kevent_wait -/

/-- 2^32, the number of values of a Windows DWORD. -/
def DWORD_LIMIT : Nat := 4294967296

/-- Embeds the C cast `(DWORD)x`: reduction of a signed integer modulo 2^32. -/
def dwordOfInt (x : Int) : Nat := (Int.emod x (DWORD_LIMIT : Int)).toNat

/-- The Windows INFINITE timeout constant, DWORD 0xFFFFFFFF. -/
def INFINITE : Nat := DWORD_LIMIT - 1

/-- Embeds `struct timespec`. -/
structure Timespec where
  tv_sec : Int
  tv_nsec : Int
deriving DecidableEq, Repr

/-- Embeds the timeout-to-milliseconds conversion performed by
windows_kevent_wait (platform.c:126-136), statement by statement:

  if (timeout == NULL) timeout_ms = INFINITE;
  else { timeout_ms = 0;
         if (timeout->tv_sec > 0) timeout_ms += ((DWORD)timeout->tv_sec) / 1000;
         if (timeout->tv_sec > 0) timeout_ms += timeout->tv_nsec / 1000000; }

`none` stands for a NULL timeout pointer.  C signed division truncates toward
zero (Int.tdiv); the accumulator timeout_ms is a DWORD, so each addition is
reduced modulo 2^32. -/
def windows_timeout_ms : Option Timespec → Nat
  | none => INFINITE
  | some t =>
    let ms0 : Nat := 0
    let ms1 : Nat :=
      if t.tv_sec > 0 then (ms0 + dwordOfInt t.tv_sec / 1000) % DWORD_LIMIT else ms0
    let ms2 : Nat :=
      if t.tv_sec > 0 then dwordOfInt ((ms1 : Int) + Int.tdiv t.tv_nsec 1000000) else ms1
    ms2

/-- The conversion the claim (and the code comment "Convert timeout to
milliseconds") describes: tv_sec seconds plus tv_nsec nanoseconds of the
supplied timespec, expressed in milliseconds.  Stated from the words of the spec
for comparison with the computation of the code. -/
def claimed_timeout_ms (t : Timespec) : Int :=
  t.tv_sec * 1000 + Int.tdiv t.tv_nsec 1000000

/-! ## C6: windows_kqueue_init -/

/-- The outcomes of the three fallible calls windows_kqueue_init makes:
CreateIoCompletionPort, CreateSemaphore, filter_register_all.  Each field is
true when the corresponding call succeeds. -/
structure WinEnv where
  iocpOk : Bool
  semaphoreOk : Bool
  filterRegOk : Bool
deriving DecidableEq, Repr

/-- Embeds windows_kqueue_init (platform.c:77-110).  The `#if DEADWOOD` block
is compiled out and therefore not embedded.  Returns 0 on success; returns -1
when the IO completion port cannot be created, when the synthetic-event
semaphore cannot be created, or when filter_register_all fails. -/
def windows_kqueue_init (e : WinEnv) : Int :=
  if e.iocpOk = false then -1
  else if e.semaphoreOk = false then -1
  else if e.filterRegOk = false then -1
  else 0

/-- Modelled from the spec: `kqueue() → int` — returns a descriptor or -1.
The public kqueue() entry point that allocates the user-visible descriptor is
not among the Windows sources; per the spec it yields a fresh valid
descriptor when platform initialization succeeds and -1 otherwise. -/
def kqueue_create (e : WinEnv) (freshFd : Nat) : Int :=
  if windows_kqueue_init e = 0 then (freshFd : Int) else -1

/-! ## C10: filter-table indexing in windows_kevent_copyout -/

/-- Embeds the C expression `~(kn->kev.filter)` at platform.c:189: bitwise
complement of a twos-complement signed integer, which on unbounded
twos-complement integers is exactly x ↦ -x-1. -/
def cNot (x : Int) : Int := -x - 1

/-- A filter-table entry; only its presence matters for the indexing claim. -/
structure Filter where
  implemented : Bool
deriving DecidableEq, Repr

/-- Embeds the array access `kq->kq_filt[~(kn->kev.filter)]` (platform.c:189)
as a checked lookup: the access is well-defined exactly when the complemented
tag lands inside the table. -/
def filterSlot (table : List Filter) (f : Int) : Option Filter :=
  if h : 0 ≤ cNot f ∧ (cNot f).toNat < table.length then
    some (table.get ⟨(cNot f).toNat, h.2⟩)
  else none

/-! ## C2, C4, C5, C9: windows_kevent_copyout -/

/-- The observable behaviour of the one `filt->kf_copyout(eventlist, kn,
&iocp_buf)` call made by windows_kevent_copyout (platform.c:190): the kevent
it writes into the first slot of the event list of the caller, and its return
value `rv`.  The per-filter copyout functions themselves are not among the
Windows sources (every filter in platform.c is an EVFILT_NOTIMPL stub), so
the call is abstracted by this record. -/
structure FiltCopyout where
  written : Kevent
  rv : Int
deriving DecidableEq, Repr

/-- What windows_kevent_copyout does after the filter copyout call: abort the
process, or return a count. -/
inductive CopyoutOutcome where
  | abortProcess : CopyoutOutcome
  | ret : Int → CopyoutOutcome
deriving DecidableEq, Repr

/-- The full observable effect of one windows_kevent_copyout call: its
outcome, the kevent the filter wrote into slot 0 of the event list (the write
happens inside kf_copyout, before the rv test), and whether knote_disable /
knote_delete were invoked on the knote. -/
structure CopyoutEffect where
  outcome : CopyoutOutcome
  slot0 : Kevent
  disableCalled : Bool
  deleteCalled : Bool
deriving DecidableEq, Repr

/-- Embeds windows_kevent_copyout (platform.c:178-218), statement by
statement: the filter copyout writes the event and returns rv; `rv < 0`
aborts the process; otherwise nret starts at 1; `eventlist->flags &
EV_DISPATCH` triggers knote_disable and `eventlist->flags & EV_ONESHOT`
triggers knote_delete; finally, if `eventlist->filter == 0` the event is
discarded and nret is decremented.  The nready and nevents parameters are
retained because the C function takes them; its body never reads either. -/
def windows_kevent_copyout (fc : FiltCopyout) (nready : Int) (nevents : Int) :
    CopyoutEffect :=
  if fc.rv < 0 then
    { outcome := CopyoutOutcome.abortProcess, slot0 := fc.written,
      disableCalled := false, deleteCalled := false }
  else
    let nret : Int := 1
    let dis : Bool := hasFlag fc.written.flags EV_DISPATCH
    let del : Bool := hasFlag fc.written.flags EV_ONESHOT
    let nret2 : Int := if fc.written.filter != 0 then nret else nret - 1
    { outcome := CopyoutOutcome.ret nret2, slot0 := fc.written,
      disableCalled := dis, deleteCalled := del }

/-- State of one registered knote, as seen by its filter: whether it is still
present in the knote index of the filter, whether it is armed (enabled), and its
kevent record. -/
structure KnState where
  present : Bool
  armed : Bool
  kev : Kevent
deriving DecidableEq, Repr

/-- Modelled from the spec: the behaviour of the kf_copyout of a filter on the
wake token for a knote.  The per-filter copyout implementations are not in
the Windows sources (platform.c stubs every filter as EVFILT_NOTIMPL).  Per
spec §4.2 a copyout translates one unit of native readiness into one BSD
event and may return "suppress" if the readiness is stale; per spec §4.3 the
aggregator treats "no knote found" or "knote disarmed" as suppression, not an
error.  Suppression is signalled to windows_kevent_copyout by writing an
empty kevent (the convention stated by the comment at platform.c:209). -/
def modelFilterCopyout (st : KnState) : FiltCopyout :=
  if st.present && st.armed then { written := st.kev, rv := 0 }
  else { written := emptyKevent, rv := 0 }

/-- One copyout pass for a wake whose token references the modelled knote:
run windows_kevent_copyout with the spec-modelled filter copyout, then apply
the knote_disable / knote_delete effects to the knote state.  Returns the new
knote state and the count returned to the caller (-1 marking the process
abort, which the model filter never triggers). -/
def copyoutStep (st : KnState) : KnState × Int :=
  let eff := windows_kevent_copyout (modelFilterCopyout st) 1 1
  let st1 := if eff.disableCalled then { st with armed := false } else st
  let st2 := if eff.deleteCalled then { st1 with present := false } else st1
  match eff.outcome with
  | CopyoutOutcome.abortProcess => (st2, -1)
  | CopyoutOutcome.ret n => (st2, n)

/-- Total number of events delivered to the caller over n successive copyout
passes on wakes referencing the modelled knote. -/
def deliveredCount : KnState → Nat → Nat
  | _, 0 => 0
  | st, n + 1 => (copyoutStep st).2.toNat + deliveredCount (copyoutStep st).1 n

/-! ## C3: windows_kqueue_free -/

/-- The resource-release actions a kqueue teardown could perform. -/
inductive FreeAction where
  | evtDestroy : FreeAction
  | freeKq : FreeAction
  | releaseKnoteResource : Nat → FreeAction
  | closeIocpHandle : FreeAction
  | closeSyntheticEvent : FreeAction
deriving DecidableEq, Repr

/-- A kqueue at teardown time: the OS resources held by the knotes across all
of its filters (one tag per open resource). -/
structure WinKqueueState where
  knoteResources : List Nat
deriving DecidableEq, Repr

/-- Embeds windows_kqueue_free (platform.c:112-117).  Its body is exactly
`evt_destroy(kq->kq_loop); free(kq);` — it performs no filter teardown,
releases no OS resource of any knote, and never closes kq_iocp or
kq_synthetic_event.  The embedding records the action trace the function
performs on the given kqueue. -/
def windows_kqueue_free (kq : WinKqueueState) : List FreeAction :=
  [FreeAction.evtDestroy, FreeAction.freeKq]

/-- The release discipline the claim states, on the action trace of a
teardown: the OS resource of every knote is released, and each such release comes
before the aggregator primitive is closed and before the kqueue memory is
freed. -/
def releasesKnotesFirst (kq : WinKqueueState) (acts : List FreeAction) : Prop :=
  ∀ r ∈ kq.knoteResources,
    FreeAction.releaseKnoteResource r ∈ acts ∧
    ∀ i j : Fin acts.length,
      acts.get i = FreeAction.releaseKnoteResource r →
      (acts.get j = FreeAction.closeIocpHandle ∨ acts.get j = FreeAction.freeKq) →
      (i : Nat) < (j : Nat)

instance (kq : WinKqueueState) (acts : List FreeAction) :
    Decidable (releasesKnotesFirst kq acts) := by
  unfold releasesKnotesFirst
  infer_instance

/-! ## C7: peer-close detection validation -/

/-- The observable behaviour of one disposable local socket pair used by the
validation: whether the surviving end polls readable before the peer end is
closed, whether it polls readable after, and what a MSG_PEEK recv on it
returns after the close (byte count, or -1 for an error). -/
structure SocketPairProbe where
  readableBeforeClose : Bool
  readableAfterClose : Bool
  peekResult : Int
deriving DecidableEq, Repr

/-- Modelled from the spec: kqueue_validate().  The function is referenced by
the comment at src/test/main.c:32 ("This technique is used in
kqueue_validate()") but its definition is not under src/.  Spec §4.5: at
first kqueue creation the system validates the peer-close detection technique
on a disposable socket pair — create pair, close one end, verify the other
reports both readability and zero bytes on a MSG_PEEK — and caches the
result.  Returns true exactly when the technique is validated and hence
trusted by the read filter. -/
def kqueue_validate (p : SocketPairProbe) : Bool :=
  p.readableAfterClose && (p.peekResult == 0)

/-- Embeds test_peer_close_detection (src/test/main.c:34-58): die on data
before the close; after closing the peer end, if poll reports readiness then
die unless a MSG_PEEK recv returns 0.  Returns true when the test passes. -/
def test_peer_close_detection (p : SocketPairProbe) : Bool :=
  if p.readableBeforeClose then false
  else if p.readableAfterClose then p.peekResult == 0
  else true

/-! ## Helper lemmas about the copyout step -/

/-- When the knote is gone from the store or is disarmed, the spec-modelled
filter copyout writes the empty kevent, so the pass delivers nothing and the
knote state is untouched. -/
theorem copyoutStep_suppressed (st : KnState)
    (h : st.present = false ∨ st.armed = false) : copyoutStep st = (st, 0) := by
  have hpa : (st.present && st.armed) = false := by
    rcases h with h | h <;> simp [h]
  simp [copyoutStep, windows_kevent_copyout, modelFilterCopyout, hpa,
    emptyKevent, hasFlag]

/-- A deleted knote never delivers again, over any number of passes. -/
theorem deliveredCount_zero_of_deleted (n : Nat) : ∀ st : KnState,
    st.present = false → deliveredCount st n = 0 := by
  induction n with
  | zero => intro st _; rfl
  | succ n ih =>
    intro st h
    have hs := copyoutStep_suppressed st (Or.inl h)
    simp [deliveredCount, hs, ih st h]

/-- When the knote is present and armed, one copyout pass delivers its kevent
(unless the kevent has filter tag 0), disables it when the written flags have
EV_DISPATCH, and deletes it when they have EV_ONESHOT. -/
theorem copyoutStep_ready (st : KnState) (hp : st.present = true)
    (ha : st.armed = true) :
    copyoutStep st =
      (⟨if hasFlag st.kev.flags EV_ONESHOT then false else true,
        if hasFlag st.kev.flags EV_DISPATCH then false else true,
        st.kev⟩,
       if st.kev.filter != 0 then 1 else 0) := by
  have hpa : (st.present && st.armed) = true := by simp [hp, ha]
  obtain ⟨p, a, k⟩ := st
  simp only at hp ha
  subst hp; subst ha
  simp only [copyoutStep, windows_kevent_copyout, modelFilterCopyout, hpa,
    if_true]
  cases hdis : hasFlag k.flags EV_DISPATCH <;>
    cases hdel : hasFlag k.flags EV_ONESHOT <;>
      cases hf : (k.filter != 0) <;>
        simp [hdis, hdel, hf]

/-- A single copyout pass delivers at most one event. -/
theorem copyoutStep_count_le_one (st : KnState) :
    (copyoutStep st).2.toNat ≤ 1 := by
  by_cases hp : st.present = true
  · by_cases ha : st.armed = true
    · rw [copyoutStep_ready st hp ha]
      cases hf : (st.kev.filter != 0) <;> simp [hf]
    · rw [copyoutStep_suppressed st (Or.inr (by simpa using ha))]
      simp
  · rw [copyoutStep_suppressed st (Or.inl (by simpa using hp))]
    simp

/-- Over any number of copyout passes, a knote whose flags carry EV_ONESHOT
delivers at most one event: the first delivery deletes it, and a deleted
knote is suppressed forever after. -/
theorem deliveredCount_oneshot_le_one (n : Nat) : ∀ st : KnState,
    hasFlag st.kev.flags EV_ONESHOT = true → deliveredCount st n ≤ 1 := by
  induction n with
  | zero => intro st _; simp [deliveredCount]
  | succ n ih =>
    intro st h
    by_cases hp : st.present = true
    · by_cases ha : st.armed = true
      · have hstep := copyoutStep_ready st hp ha
        have hdel : (copyoutStep st).1.present = false := by rw [hstep]; simp [h]
        have hrest : deliveredCount (copyoutStep st).1 n = 0 :=
          deliveredCount_zero_of_deleted n (copyoutStep st).1 hdel
        have hone : (copyoutStep st).2.toNat ≤ 1 := copyoutStep_count_le_one st
        have : deliveredCount st (n + 1) =
            (copyoutStep st).2.toNat + deliveredCount (copyoutStep st).1 n := rfl
        omega
      · have hs := copyoutStep_suppressed st (Or.inr (by simpa using ha))
        have : deliveredCount st (n + 1) = deliveredCount st n := by
          simp [deliveredCount, hs]
        rw [this]; exact ih st h
    · have hs := copyoutStep_suppressed st (Or.inl (by simpa using hp))
      have : deliveredCount st (n + 1) = deliveredCount st n := by
        simp [deliveredCount, hs]
      rw [this]; exact ih st h

/-! ## Claim theorems -/

/-- C1: the claim says the blocking duration equals tv_sec seconds plus
tv_nsec nanoseconds converted to milliseconds; the code instead divides
tv_sec by 1000 and gates the nanosecond term on tv_sec > 0.  A one-second
timeout is converted to 0 ms (a poll) instead of 1000 ms, and a
half-second timeout is converted to 0 ms instead of 500 ms.  The NULL and
all-zero cases do behave as claimed. -/
theorem C1_wait_timeout_conversion_bug :
    windows_timeout_ms (some ⟨1, 0⟩) = 0 ∧
    claimed_timeout_ms ⟨1, 0⟩ = 1000 ∧
    windows_timeout_ms (some ⟨0, 500000000⟩) = 0 ∧
    claimed_timeout_ms ⟨0, 500000000⟩ = 500 ∧
    windows_timeout_ms none = INFINITE ∧
    windows_timeout_ms (some ⟨0, 0⟩) = 0 := by
  refine ⟨?_, ?_, ?_, ?_, ?_, ?_⟩ <;> decide

/-- C2: at copyout, a delivered knote whose flags carry EV_DISPATCH is
disabled immediately after delivery, one whose flags carry EV_ONESHOT is
deleted, and consequently a knote with EV_ONESHOT delivers at most one event
over any number of copyout passes. -/
theorem C2_dispatch_disables_oneshot_deletes (st : KnState) (n : Nat) :
    (st.present = true → st.armed = true →
      hasFlag st.kev.flags EV_DISPATCH = true → (copyoutStep st).1.armed = false) ∧
    (st.present = true → st.armed = true →
      hasFlag st.kev.flags EV_ONESHOT = true → (copyoutStep st).1.present = false) ∧
    (hasFlag st.kev.flags EV_ONESHOT = true → deliveredCount st n ≤ 1) := by
  refine ⟨?_, ?_, ?_⟩
  · intro hp ha hd
    rw [copyoutStep_ready st hp ha]
    simp [hd]
  · intro hp ha ho
    rw [copyoutStep_ready st hp ha]
    simp [ho]
  · intro ho
    exact deliveredCount_oneshot_le_one n st ho

/-- Witness for C2, at a timer knote with EV_ONESHOT and EV_DISPATCH
(flags = 144 = 0x90). -/
theorem C2_dispatch_disables_oneshot_deletes_witness :
    (copyoutStep ⟨true, true, ⟨7, -7, 144, 0, 1, 0⟩⟩).1.armed = false ∧
    (copyoutStep ⟨true, true, ⟨7, -7, 144, 0, 1, 0⟩⟩).1.present = false ∧
    deliveredCount ⟨true, true, ⟨7, -7, 144, 0, 1, 0⟩⟩ 3 ≤ 1 :=
  ⟨(C2_dispatch_disables_oneshot_deletes ⟨true, true, ⟨7, -7, 144, 0, 1, 0⟩⟩ 3).1
      rfl rfl (by decide),
   (C2_dispatch_disables_oneshot_deletes ⟨true, true, ⟨7, -7, 144, 0, 1, 0⟩⟩ 3).2.1
      rfl rfl (by decide),
   (C2_dispatch_disables_oneshot_deletes ⟨true, true, ⟨7, -7, 144, 0, 1, 0⟩⟩ 3).2.2
      (by decide)⟩

/-- C3: the claim says freeing the kqueue releases the OS resource of every
knote in every filter before the aggregator primitive and the descriptor are
released; windows_kqueue_free performs only evt_destroy and free, releasing
no knote resource at all (shown here on a kqueue holding one knote resource,
tagged 5). -/
theorem C3_free_releases_no_knotes :
    windows_kqueue_free ⟨[5]⟩ = [FreeAction.evtDestroy, FreeAction.freeKq] ∧
    ¬ releasesKnotesFirst ⟨[5]⟩ (windows_kqueue_free ⟨[5]⟩) := by
  refine ⟨rfl, ?_⟩
  intro hrel
  obtain ⟨hmem, _⟩ := hrel 5 (by simp)
  simp [windows_kqueue_free] at hmem

/-- C4: a copyout pass whose filter translation yields an empty event
(filter tag 0) is discarded: the return count is 0 and no error is reported;
in particular, under the spec-modelled filter copyout, a wake for a missing
or disarmed knote returns 0 and leaves the knote state untouched. -/
theorem C4_spurious_wake_suppressed (fc : FiltCopyout) (n m : Int)
    (st : KnState) :
    (0 ≤ fc.rv → fc.written.filter = 0 →
      (windows_kevent_copyout fc n m).outcome = CopyoutOutcome.ret 0) ∧
    (st.present = false ∨ st.armed = false → copyoutStep st = (st, 0)) := by
  refine ⟨?_, copyoutStep_suppressed st⟩
  intro hrv hf
  have hlt : ¬ fc.rv < 0 := by omega
  simp [windows_kevent_copyout, hlt, hf]

/-- Witness for C4: a wake whose translation is the empty kevent returns 0,
and a wake for a disarmed knote is a no-op returning 0. -/
theorem C4_spurious_wake_suppressed_witness :
    (windows_kevent_copyout ⟨emptyKevent, 0⟩ 1 1).outcome = CopyoutOutcome.ret 0 ∧
    copyoutStep ⟨true, false, emptyKevent⟩ = (⟨true, false, emptyKevent⟩, 0) :=
  ⟨(C4_spurious_wake_suppressed ⟨emptyKevent, 0⟩ 1 1 ⟨true, false, emptyKevent⟩).1
      (by decide) rfl,
   (C4_spurious_wake_suppressed ⟨emptyKevent, 0⟩ 1 1 ⟨true, false, emptyKevent⟩).2
      (Or.inr rfl)⟩

/-- C5: when the kf_copyout of a filter returns a negative result, the
condition is unrecoverable: windows_kevent_copyout aborts the process and in
particular never returns any count to the caller. -/
theorem C5_negative_copyout_aborts (fc : FiltCopyout) (n m : Int)
    (h : fc.rv < 0) :
    (windows_kevent_copyout fc n m).outcome = CopyoutOutcome.abortProcess ∧
    ∀ r : Int, (windows_kevent_copyout fc n m).outcome ≠ CopyoutOutcome.ret r := by
  simp [windows_kevent_copyout, h]

/-- Witness for C5, at a filter copyout returning -1. -/
theorem C5_negative_copyout_aborts_witness :
    (windows_kevent_copyout ⟨emptyKevent, -1⟩ 1 1).outcome =
      CopyoutOutcome.abortProcess ∧
    ∀ r : Int, (windows_kevent_copyout ⟨emptyKevent, -1⟩ 1 1).outcome ≠
      CopyoutOutcome.ret r :=
  C5_negative_copyout_aborts ⟨emptyKevent, -1⟩ 1 1 (by decide)

/-- C6: windows_kqueue_init returns 0 exactly when the IO completion port,
the synthetic-event semaphore, and the filter-table registration all
succeed, and -1 otherwise; the spec-modelled kqueue() returns -1 whenever
initialization failed and a valid descriptor only when it succeeded. -/
theorem C6_init_failure_returns_minus_one (e : WinEnv) (fd : Nat) :
    (windows_kqueue_init e = 0 ∨ windows_kqueue_init e = -1) ∧
    (windows_kqueue_init e = 0 ↔
      e.iocpOk = true ∧ e.semaphoreOk = true ∧ e.filterRegOk = true) ∧
    (windows_kqueue_init e = -1 → kqueue_create e fd = -1) ∧
    (0 ≤ kqueue_create e fd →
      windows_kqueue_init e = 0 ∧ kqueue_create e fd = (fd : Int)) := by
  obtain ⟨a, b, c⟩ := e
  cases a <;> cases b <;> cases c <;>
    simp [windows_kqueue_init, kqueue_create]

/-- Witness for C6: a failing CreateSemaphore makes kqueue creation fail. -/
theorem C6_init_failure_returns_minus_one_witness :
    windows_kqueue_init ⟨true, false, true⟩ = -1 ∧
    kqueue_create ⟨true, false, true⟩ 4 = -1 :=
  ⟨by decide,
   (C6_init_failure_returns_minus_one ⟨true, false, true⟩ 4).2.2.1 (by decide)⟩

/-- C7: the spec-modelled validation of the peer-close detection technique
trusts it exactly when the surviving end of the disposable socket pair
reports readability after the peer close and a MSG_PEEK receive on it
returns zero bytes; whenever the validation trusts the technique, the
in-tree test test_peer_close_detection also passes. -/
theorem C7_peer_close_validation (p : SocketPairProbe) :
    (kqueue_validate p = true ↔
      p.readableAfterClose = true ∧ p.peekResult = 0) ∧
    (p.readableBeforeClose = false → kqueue_validate p = true →
      test_peer_close_detection p = true) := by
  obtain ⟨b, a, k⟩ := p
  cases b <;> cases a <;>
    simp [kqueue_validate, test_peer_close_detection]

/-- Witness for C7, at a probe that reports readability and a zero-byte
peek after the peer close. -/
theorem C7_peer_close_validation_witness :
    test_peer_close_detection ⟨false, true, 0⟩ = true :=
  (C7_peer_close_validation ⟨false, true, 0⟩).2 rfl (by decide)

/-- C9: windows_kevent_copyout is entirely independent of its nready and
nevents parameters, always writes the filter-translated kevent into the
first slot of the event list (even when nevents is 0), and any count it
returns is 0 or 1. -/
theorem C9_copyout_ignores_counts (fc : FiltCopyout) (n1 n2 m1 m2 : Int) :
    windows_kevent_copyout fc n1 m1 = windows_kevent_copyout fc n2 m2 ∧
    (windows_kevent_copyout fc n1 m1).slot0 = fc.written ∧
    (∀ r : Int, (windows_kevent_copyout fc n1 m1).outcome = CopyoutOutcome.ret r →
      r = 0 ∨ r = 1) := by
  refine ⟨rfl, ?_, ?_⟩
  · unfold windows_kevent_copyout
    split <;> rfl
  · intro r hr
    unfold windows_kevent_copyout at hr
    split at hr
    · simp at hr
    · simp only [CopyoutOutcome.ret.injEq] at hr
      split at hr <;> omega

/-- Witness for C9: with nevents = 0 the first slot is still written, the
result equals the one at nready = 5, nevents = 7, and the returned count 1
is 0 or 1. -/
theorem C9_copyout_ignores_counts_witness :
    windows_kevent_copyout ⟨⟨3, -1, 0, 0, 0, 0⟩, 0⟩ 1 0 =
      windows_kevent_copyout ⟨⟨3, -1, 0, 0, 0, 0⟩, 0⟩ 5 7 ∧
    (windows_kevent_copyout ⟨⟨3, -1, 0, 0, 0, 0⟩, 0⟩ 1 0).slot0 =
      (⟨3, -1, 0, 0, 0, 0⟩ : Kevent) ∧
    ((1 : Int) = 0 ∨ (1 : Int) = 1) :=
  ⟨(C9_copyout_ignores_counts ⟨⟨3, -1, 0, 0, 0, 0⟩, 0⟩ 1 5 0 7).1,
   (C9_copyout_ignores_counts ⟨⟨3, -1, 0, 0, 0, 0⟩, 0⟩ 1 5 0 7).2.1,
   (C9_copyout_ignores_counts ⟨⟨3, -1, 0, 0, 0, 0⟩, 0⟩ 1 5 0 7).2.2 1 (by decide)⟩

/-- C10: the filter owning a knote is located at index ~filter = -filter-1 of
the filter table, so EVFILT_READ = -1 maps to slot 0, and the access is
well-defined exactly for negative filter tags no smaller than minus the
table length. -/
theorem C10_filter_table_index (table : List Filter) (f : Int) :
    cNot f = -f - 1 ∧
    cNot EVFILT_READ = 0 ∧
    ((filterSlot table f).isSome ↔ f < 0 ∧ -(table.length : Int) ≤ f) := by
  refine ⟨rfl, by decide, ?_⟩
  unfold filterSlot
  split
  case isTrue h =>
    simp only [Option.isSome_some, true_iff]
    unfold cNot at h
    omega
  case isFalse h =>
    simp only [Option.isSome_none, Bool.false_eq_true, false_iff]
    intro hc
    apply h
    unfold cNot
    omega

/-- Witness for C10: in a one-entry table, EVFILT_READ resolves to slot 0
and the lookup succeeds. -/
theorem C10_filter_table_index_witness :
    (filterSlot [⟨true⟩] (-1)).isSome = true :=
  (C10_filter_table_index [⟨true⟩] (-1)).2.2.mpr ⟨by decide, by decide⟩

end LibKqueue
